import Mathlib

/-!
Verification of the core of the `microservice` FastAPI application
(`app/main.py`, `app/database.py`, `app/routers/database.py`) against its
natural-language specification.

The Python code is shallowly embedded: wall-clock readings (Python
`time.time()` values) are integers (seconds; only `-`, `<`, `≤` and `+ 60`
are applied to them, so the ordered-ring structure is all that matters),
mutable per-client windows and metric dictionaries are explicit values
threaded through the functions, and the behaviour of the external backends
(PostgreSQL, Redis, DynamoDB, downstream HTTP services) is passed in as
explicit outcome data, since the Python code only reacts to what those
backends return or raise.
-/

namespace Microservice

/-! ## Rate limiter (`rate_limit_middleware`, main.py lines 105-133)

`request_counts` maps each client IP to an independent list of request
time stamps; the middleware body reads and writes only the entry of the
requesting client, so we model a single client's entry.  `RATE_LIMIT` is the
`limit` parameter. -/

/-- The prune step of `rate_limit_middleware` (main.py lines 112-116):
keep exactly the time stamps `t` with `now - t < 60`. -/
def pruneWindow (now : ℤ) (w : List ℤ) : List ℤ :=
  w.filter (fun t => decide (now - t < 60))

/-- Outcome of one pass through the rate-limiting section for one client:
whether the request was admitted, the client's new window, and the
`retry_after` field of the 429 response body (present only on rejection). -/
structure AdmitResult where
  allowed : Bool
  window : List ℤ
  retryAfter : Option ℕ
  deriving Repr, DecidableEq

/-- The rate-limiting section of `rate_limit_middleware` (main.py lines
108-128) for a single client: prune the window, reject with
`retry_after = 60` if the pruned length has reached `RATE_LIMIT`
(`len(...) >= RATE_LIMIT`), otherwise append `now` and let the request
through. -/
def admitRequest (limit : ℕ) (now : ℤ) (w : List ℤ) : AdmitResult :=
  let pruned := pruneWindow now w
  if pruned.length ≥ limit then
    { allowed := false, window := pruned, retryAfter := some 60 }
  else
    { allowed := true, window := pruned ++ [now], retryAfter := none }

/-- A sequence of requests by one client, processed in order by
`rate_limit_middleware`; returns each request's time stamp paired with
whether it was admitted.  The middleware body holds no `await` between the
prune and the append, so under the asyncio event loop each request's
prune-check-append section runs as one atomic step; an interleaving of
concurrent requests for one client is therefore exactly a sequence of such
steps. -/
def runAdmits (limit : ℕ) : List ℤ → List ℤ → List (ℤ × Bool)
  | _, [] => []
  | w, t :: ts =>
    let r := admitRequest limit t w
    (t, r.allowed) :: runAdmits limit r.window ts

/-- Time stamps of the admitted requests of a run, in request order. -/
def allowedTimes (l : List (ℤ × Bool)) : List ℤ :=
  (l.filter (fun p => p.2)).map Prod.fst

/-- Number of time stamps of `l` lying in the rolling window `[a, a + 60)`. -/
def countIn (a : ℤ) (l : List ℤ) : ℕ :=
  (l.filter (fun t => decide (a ≤ t) && decide (t < a + 60))).length

/-- 101 request times within 10 seconds (scenario of spec §8): request `i`
arrives at second `i / 10`. -/
def scenarioTimes : List ℤ :=
  (List.range 101).map (fun i => (i : ℤ) / 10)

set_option maxRecDepth 100000 in
/-- **C1**: `Admit` prunes the client's window to time stamps `t` with
`now - t < 60`, allows iff the pruned count is strictly below the limit,
appends `now` exactly on allow, and on rejection returns the pruned window
unchanged together with the fixed retry hint of 60 seconds.  With
`limit = 100`, 101 admissions by one client within 10 seconds yield `true`
for calls 1-100 and `false` for call 101. -/
theorem admit_spec (limit : ℕ) (now : ℤ) (w : List ℤ) :
    ((admitRequest limit now w).allowed = true ↔ (pruneWindow now w).length < limit) ∧
    ((admitRequest limit now w).allowed = true →
      (admitRequest limit now w).window = pruneWindow now w ++ [now] ∧
      (admitRequest limit now w).retryAfter = none) ∧
    ((admitRequest limit now w).allowed = false →
      (admitRequest limit now w).window = pruneWindow now w ∧
      (admitRequest limit now w).retryAfter = some 60) ∧
    (runAdmits 100 [] scenarioTimes).map Prod.snd =
      List.replicate 100 true ++ [false] := by
  refine ⟨?_, ?_, ?_, by decide⟩ <;>
    · unfold admitRequest
      by_cases h : (pruneWindow now w).length ≥ limit <;> simp [h] <;> omega

/-- Witness for `admit_spec`: concrete instance at `limit = 1`, `now = 0`,
empty window. -/
theorem admit_spec_witness :
    (admitRequest 1 0 []).allowed = true ∧ (admitRequest 1 0 []).window = pruneWindow 0 [] ++ [0] := by
  have h := (admit_spec 1 0 []).1.mpr (by decide)
  exact ⟨h, ((admit_spec 1 0 []).2.1 h).1⟩

/-- **C7**: after every completed `Admit`, every time stamp remaining in the
window satisfies `now - t < 60`; and once the oldest entry of a window that
is at the limit has aged 60 seconds or more, the next `Admit` is allowed
again. -/
theorem admit_window_fresh :
    (∀ (limit : ℕ) (now : ℤ) (w : List ℤ),
      ∀ t ∈ (admitRequest limit now w).window, now - t < 60) ∧
    (∀ (limit : ℕ) (now' oldest : ℤ) (rest : List ℤ),
      (oldest :: rest).length = limit → 60 ≤ now' - oldest →
      (admitRequest limit now' (oldest :: rest)).allowed = true) := by
  constructor
  · intro limit now w t ht
    unfold admitRequest at ht
    by_cases h : (pruneWindow now w).length ≥ limit <;> simp [h] at ht
    · exact of_decide_eq_true (List.mem_filter.mp ht).2
    · rcases ht with ht | ht
      · exact of_decide_eq_true (List.mem_filter.mp ht).2
      · omega
  · intro limit now' oldest rest hlen hage
    have hpr : pruneWindow now' (oldest :: rest) = pruneWindow now' rest := by
      unfold pruneWindow
      simp only [List.filter_cons]
      rw [if_neg]
      simp
      omega
    unfold admitRequest
    rw [hpr]
    have : (pruneWindow now' rest).length ≤ rest.length := List.length_filter_le _ _
    have hlt : ¬ ((pruneWindow now' rest).length ≥ limit) := by
      simp only [List.length_cons] at hlen
      omega
    simp [hlt]

/-- Witness for `admit_window_fresh`: concrete instances — the entry `0` of
the window after `admitRequest 1 0 []` is fresh, and a full window `[0]` at
limit 1 is admitted again at `now' = 61`. -/
theorem admit_window_fresh_witness :
    ((0 : ℤ) - 0 < 60) ∧ (admitRequest 1 61 [0]).allowed = true :=
  ⟨admit_window_fresh.1 1 0 [] 0 (by decide),
   admit_window_fresh.2 1 61 0 [] (by decide) (by decide)⟩

/-- One step of `runAdmits`. -/
lemma runAdmits_cons (limit : ℕ) (w : List ℤ) (t : ℤ) (ts : List ℤ) :
    runAdmits limit w (t :: ts) =
      (t, (admitRequest limit t w).allowed) ::
        runAdmits limit (admitRequest limit t w).window ts := rfl

/-- `admitRequest` below the limit: allowed, `now` appended. -/
lemma admit_of_lt (limit : ℕ) (now : ℤ) (w : List ℤ)
    (h : (pruneWindow now w).length < limit) :
    admitRequest limit now w =
      { allowed := true, window := pruneWindow now w ++ [now], retryAfter := none } := by
  unfold admitRequest
  rw [if_neg (by omega)]

/-- `admitRequest` at or above the limit: rejected, window merely pruned. -/
lemma admit_of_ge (limit : ℕ) (now : ℤ) (w : List ℤ)
    (h : limit ≤ (pruneWindow now w).length) :
    admitRequest limit now w =
      { allowed := false, window := pruneWindow now w, retryAfter := some 60 } := by
  unfold admitRequest
  rw [if_pos h]

/-- Pruning at a later instant after pruning at an earlier one prunes
exactly as at the later instant (monotone wall clock). -/
lemma pruneWindow_comp (T t : ℤ) (h : T ≤ t) (l : List ℤ) :
    pruneWindow t (pruneWindow T l) = pruneWindow t l := by
  unfold pruneWindow
  rw [List.filter_filter]
  apply List.filter_congr
  intro x _
  by_cases hx : t - x < 60
  · have hT : T - x < 60 := by omega
    simp [hx, hT]
  · simp [hx]

lemma pruneWindow_append (now : ℤ) (l₁ l₂ : List ℤ) :
    pruneWindow now (l₁ ++ l₂) = pruneWindow now l₁ ++ pruneWindow now l₂ := by
  simp [pruneWindow]

lemma pruneWindow_singleton_self (t : ℤ) : pruneWindow t [t] = [t] := by
  simp [pruneWindow]

lemma countIn_append (a : ℤ) (l₁ l₂ : List ℤ) :
    countIn a (l₁ ++ l₂) = countIn a l₁ + countIn a l₂ := by
  unfold countIn
  rw [List.filter_append, List.length_append]

lemma countIn_singleton (a t : ℤ) :
    countIn a [t] = if a ≤ t ∧ t < a + 60 then 1 else 0 := by
  by_cases h1 : a ≤ t <;> by_cases h2 : t < a + 60 <;>
    simp [countIn, List.filter, h1, h2]

/-- Time stamps inside `[a, a + 60)` all survive pruning at any instant `t`
that itself lies in `[a, a + 60)`, so the rolling-window count is bounded by
the pruned length. -/
lemma countIn_le_prune (a t : ℤ) (hta : a ≤ t) (htb : t < a + 60) (l : List ℤ) :
    countIn a l ≤ (pruneWindow t l).length := by
  unfold countIn pruneWindow
  have hsub : l.filter (fun x => decide (a ≤ x) && decide (x < a + 60))
      = (l.filter (fun x => decide (t - x < 60))).filter
          (fun x => decide (a ≤ x) && decide (x < a + 60)) := by
    rw [List.filter_filter]
    apply List.filter_congr
    intro x _
    by_cases h1 : a ≤ x <;> by_cases h2 : x < a + 60
    · have h3 : t - x < 60 := by omega
      simp [h1, h2, h3]
    · simp [h1, h2]
    · simp [h1, h2]
    · simp [h1, h2]
  rw [hsub]
  exact List.length_filter_le _ _

lemma allowedTimes_cons_true (t : ℤ) (l : List (ℤ × Bool)) :
    allowedTimes ((t, true) :: l) = t :: allowedTimes l := by
  simp [allowedTimes]

lemma allowedTimes_cons_false (t : ℤ) (l : List (ℤ × Bool)) :
    allowedTimes ((t, false) :: l) = allowedTimes l := by
  simp [allowedTimes]

/-- Invariant of a run of admissions: if the shared window is exactly the
prune (at the last instant `T`) of the list `allowed` of previously admitted
time stamps, and every rolling 60-second interval holds at most `limit` of
those, then after any further nondecreasing sequence of requests every
rolling interval still holds at most `limit` admitted time stamps. -/
lemma runAdmits_bound_aux (limit : ℕ) :
    ∀ (times allowed : List ℤ) (T : ℤ),
      List.Chain (· ≤ ·) T times →
      (∀ a, countIn a allowed ≤ limit) →
      ∀ a, countIn a
        (allowed ++ allowedTimes (runAdmits limit (pruneWindow T allowed) times))
        ≤ limit := by
  intro times
  induction times with
  | nil =>
    intro allowed T _ hinv a
    simpa [runAdmits, allowedTimes] using hinv a
  | cons t ts ih =>
    intro allowed T hchain hinv a
    cases hchain with
    | cons hTt htail =>
      have hpp : pruneWindow t (pruneWindow T allowed) = pruneWindow t allowed :=
        pruneWindow_comp T t hTt allowed
      rw [runAdmits_cons]
      by_cases hge : limit ≤ (pruneWindow t (pruneWindow T allowed)).length
      · rw [admit_of_ge _ _ _ hge]
        rw [hpp] at hge ⊢
        rw [allowedTimes_cons_false]
        exact ih allowed t htail hinv a
      · push_neg at hge
        rw [admit_of_lt _ _ _ hge]
        rw [hpp] at hge ⊢
        rw [allowedTimes_cons_true, List.append_cons]
        have hwin : pruneWindow t allowed ++ [t] = pruneWindow t (allowed ++ [t]) := by
          rw [pruneWindow_append, pruneWindow_singleton_self]
        rw [hwin]
        apply ih (allowed ++ [t]) t htail
        intro a'
        rw [countIn_append, countIn_singleton]
        by_cases hin : a' ≤ t ∧ t < a' + 60
        · have hle : countIn a' allowed ≤ (pruneWindow t allowed).length :=
            countIn_le_prune a' t hin.1 hin.2 allowed
          rw [if_pos hin]
          omega
        · rw [if_neg hin]
          simpa using hinv a'

/-- **C8**: for any interleaving of concurrent `Admit` calls for one client
(which, the prune-check-append section holding no `await`, is a sequence of
atomic steps with nondecreasing wall-clock readings), at most `limit` calls
are admitted with time stamps inside any rolling 60-second interval. -/
theorem admits_no_overshoot (limit : ℕ) (times : List ℤ)
    (hmono : List.Chain' (· ≤ ·) times) (a : ℤ) :
    countIn a (allowedTimes (runAdmits limit [] times)) ≤ limit := by
  cases times with
  | nil => simp [runAdmits, allowedTimes, countIn]
  | cons t ts =>
    have h := runAdmits_bound_aux limit (t :: ts) [] t
      (List.Chain.cons le_rfl hmono) (fun a' => by simp [countIn]) a
    simpa [pruneWindow, countIn] using h

/-- Witness for `admits_no_overshoot`: a concrete monotone trace of three
requests at limit 1. -/
theorem admits_no_overshoot_witness :
    countIn 0 (allowedTimes (runAdmits 1 [] [0, 10, 59])) ≤ 1 :=
  admits_no_overshoot 1 [0, 10, 59]
    (List.Chain.cons (by norm_num) (List.Chain.cons (by norm_num) List.Chain.nil)) 0

/-! ## Call dispatcher and metrics (`call_service`, main.py lines 50-58 and
257-290)

`CONSUMER_SERVICES` is the static target table; each entry is a dict with
keys `name`, `endpoint`, `port` and optional `timeout` (default 30).  The
`metrics` dict is the process-wide counter state.  The outcome of the
outbound `aiohttp` POST is environment data: the call either raises
`asyncio.TimeoutError`, raises some other exception, or completes with a
status and a JSON body. -/

/-- One entry of `CONSUMER_SERVICES`. -/
structure ConsumerService where
  name : String
  endpoint : String
  port : ℕ
  timeout : Option ℕ
  deriving Repr, DecidableEq

/-- The `metrics` dict (main.py lines 51-58).  The dict-valued counters are
association lists in insertion order, mirroring `d[k] = d.get(k, 0) + 1`. -/
structure Metrics where
  requests_total : ℕ
  requests_by_status : List (String × ℕ)
  requests_by_endpoint : List (String × ℕ)
  service_calls_total : ℕ
  service_calls_by_service : List (String × ℕ)
  start_time : ℤ
  deriving Repr, DecidableEq

/-- `d.get(k, 0)` on a counter dict. -/
def getCount (m : List (String × ℕ)) (k : String) : ℕ :=
  (m.lookup k).getD 0

/-- `d[k] = v` on a counter dict. -/
def setCount : List (String × ℕ) → String → ℕ → List (String × ℕ)
  | [], k, v => [(k, v)]
  | (k', v') :: rest, k, v =>
    if k' = k then (k, v) :: rest else (k', v') :: setCount rest k v

/-- `d[k] = d.get(k, 0) + 1`. -/
def bumpCount (m : List (String × ℕ)) (k : String) : List (String × ℕ) :=
  setCount m k (getCount m k + 1)

/-- Behaviour of the outbound HTTP POST to the resolved target, supplied by
the environment: the awaited call raises `asyncio.TimeoutError`, raises some
other exception (connection refused, DNS failure, ...), or completes with a
downstream status and body. -/
inductive CallOutcome where
  | raisesTimeout
  | raises (msg : String)
  | responds (status : ℕ) (body : String)
  deriving Repr, DecidableEq

/-- Result of `call_service` as seen by the HTTP caller.  `notFound`,
`gatewayTimeout` and `badGateway` are the `HTTPException`s with statuses
404, 504 and 502; `upstream` is the JSON body
`{service, status, result, timestamp}` returned on completion, carrying the
downstream status and body verbatim (the route itself then answers 200). -/
inductive DispatchResult where
  | notFound
  | gatewayTimeout
  | badGateway (msg : String)
  | upstream (service : String) (status : ℕ) (result : String)
  deriving Repr, DecidableEq

/-- HTTP status of the gateway's own response for each dispatch result
(main.py lines 263, 279-290). -/
def DispatchResult.httpStatus : DispatchResult → ℕ
  | .notFound => 404
  | .gatewayTimeout => 504
  | .badGateway _ => 502
  | .upstream _ _ _ => 200

/-- `call_service` (main.py lines 257-290): resolve `service_name` in the
static table with `next((s for s in CONSUMER_SERVICES if s["name"] ==
service_name), None)`; on miss raise 404 without touching the metrics;
on hit increment `service_calls_total` and the per-service counter, then
issue the call and classify its outcome — `except asyncio.TimeoutError`
(504) is tried before `except Exception` (502); a completed response is
returned with its status and body. -/
def call_service (services : List ConsumerService) (m : Metrics)
    (service_name : String) (outcome : CallOutcome) :
    DispatchResult × Metrics :=
  match services.find? (fun s => s.name == service_name) with
  | none => (DispatchResult.notFound, m)
  | some _ =>
    let m' := { m with
      service_calls_total := m.service_calls_total + 1,
      service_calls_by_service := bumpCount m.service_calls_by_service service_name }
    match outcome with
    | .raisesTimeout => (DispatchResult.gatewayTimeout, m')
    | .raises msg => (DispatchResult.badGateway msg, m')
    | .responds status body =>
      (DispatchResult.upstream service_name status body, m')

/-- **C2**: `Dispatch` on an unknown name is `notFound` (404); otherwise the
outcome is classified into exactly one of timeout (504, never 502), transport
error (502), or upstream pass-through, the downstream status and body being
returned verbatim. -/
theorem call_service_classification (services : List ConsumerService)
    (m : Metrics) (name : String) (outcome : CallOutcome) :
    (services.find? (fun s => s.name == name) = none →
      (call_service services m name outcome).1 = DispatchResult.notFound) ∧
    (∀ s, services.find? (fun s' => s'.name == name) = some s →
      ((call_service services m name outcome).1 = DispatchResult.gatewayTimeout
          ↔ outcome = CallOutcome.raisesTimeout) ∧
      (∀ msg, (call_service services m name outcome).1 = DispatchResult.badGateway msg
          ↔ outcome = CallOutcome.raises msg) ∧
      (∀ st b, (call_service services m name outcome).1 = DispatchResult.upstream name st b
          ↔ outcome = CallOutcome.responds st b)) := by
  constructor
  · intro h
    simp [call_service, h]
  · intro s hs
    refine ⟨?_, ?_, ?_⟩ <;> (cases outcome <;> simp [call_service, hs])

/-- Witness for `call_service_classification`: a one-entry table, a timeout
outcome on the known name, and a miss on an unknown name. -/
theorem call_service_classification_witness :
    (call_service [⟨"svc", "10.0.0.1", 80, none⟩] ⟨0, [], [], 0, [], 0⟩
        "missing-service" CallOutcome.raisesTimeout).1 = DispatchResult.notFound ∧
    (call_service [⟨"svc", "10.0.0.1", 80, none⟩] ⟨0, [], [], 0, [], 0⟩
        "svc" CallOutcome.raisesTimeout).1 = DispatchResult.gatewayTimeout := by
  constructor
  · exact (call_service_classification [⟨"svc", "10.0.0.1", 80, none⟩]
      ⟨0, [], [], 0, [], 0⟩ "missing-service" CallOutcome.raisesTimeout).1 (by decide)
  · exact ((call_service_classification [⟨"svc", "10.0.0.1", 80, none⟩]
      ⟨0, [], [], 0, [], 0⟩ "svc" CallOutcome.raisesTimeout).2
      ⟨"svc", "10.0.0.1", 80, none⟩ (by decide)).1.mpr rfl

lemma getCount_setCount_self (m : List (String × ℕ)) (k : String) (v : ℕ) :
    getCount (setCount m k v) k = v := by
  induction m with
  | nil => simp [setCount, getCount, List.lookup]
  | cons p rest ih =>
    obtain ⟨k', v'⟩ := p
    by_cases h : k' = k
    · simp [setCount, h, getCount, List.lookup]
    · have hb : (k == k') = false := beq_eq_false_iff_ne.mpr (Ne.symm h)
      simp only [setCount, if_neg h]
      simpa [getCount, List.lookup, hb] using ih

lemma getCount_setCount_ne (m : List (String × ℕ)) (k k' : String) (v : ℕ)
    (h : k' ≠ k) : getCount (setCount m k v) k' = getCount m k' := by
  have hb : (k' == k) = false := beq_eq_false_iff_ne.mpr h
  induction m with
  | nil => simp [setCount, getCount, List.lookup, hb]
  | cons p rest ih =>
    obtain ⟨k'', v''⟩ := p
    by_cases h2 : k'' = k
    · subst h2
      simp [setCount, getCount, List.lookup, hb]
    · simp only [setCount, if_neg h2]
      by_cases h3 : k'' = k'
      · simp [getCount, List.lookup, h3]
      · have hb3 : (k' == k'') = false := beq_eq_false_iff_ne.mpr (Ne.symm h3)
        simpa [getCount, List.lookup, hb3] using ih

lemma getCount_bumpCount_self (m : List (String × ℕ)) (k : String) :
    getCount (bumpCount m k) k = getCount m k + 1 :=
  getCount_setCount_self m k _

lemma getCount_bumpCount_ne (m : List (String × ℕ)) (k k' : String)
    (h : k' ≠ k) : getCount (bumpCount m k) k' = getCount m k' :=
  getCount_setCount_ne m k k' _ h

/-- **C9**: a dispatch to a known service increments `service_calls_total`
and the service's own entry by exactly one and leaves every other counter
(and every other service's entry) unchanged, independently of the outcome —
the metrics update precedes classification; a dispatch to an unknown service
leaves the metrics entirely unchanged. -/
theorem call_service_metrics (services : List ConsumerService)
    (m : Metrics) (name : String) (outcome : CallOutcome) :
    (∀ s, services.find? (fun s' => s'.name == name) = some s →
      (call_service services m name outcome).2.service_calls_total
        = m.service_calls_total + 1 ∧
      getCount (call_service services m name outcome).2.service_calls_by_service name
        = getCount m.service_calls_by_service name + 1 ∧
      (∀ k, k ≠ name →
        getCount (call_service services m name outcome).2.service_calls_by_service k
          = getCount m.service_calls_by_service k) ∧
      (call_service services m name outcome).2.requests_total = m.requests_total ∧
      (call_service services m name outcome).2.requests_by_status
        = m.requests_by_status ∧
      (call_service services m name outcome).2.requests_by_endpoint
        = m.requests_by_endpoint ∧
      (∀ outcome', (call_service services m name outcome').2
          = (call_service services m name outcome).2)) ∧
    (services.find? (fun s => s.name == name) = none →
      (call_service services m name outcome).2 = m) := by
  constructor
  · intro s hs
    refine ⟨?_, ?_, ?_, ?_, ?_, ?_, ?_⟩
    · cases outcome <;> simp [call_service, hs]
    · cases outcome <;> simp [call_service, hs, getCount_bumpCount_self]
    · intro k hk
      cases outcome <;> simp [call_service, hs, getCount_bumpCount_ne _ _ _ hk]
    · cases outcome <;> simp [call_service, hs]
    · cases outcome <;> simp [call_service, hs]
    · cases outcome <;> simp [call_service, hs]
    · intro outcome'
      cases outcome <;> cases outcome' <;> simp [call_service, hs]
  · intro h
    simp [call_service, h]

/-- Witness for `call_service_metrics`: concrete one-entry table, one hit
and one miss. -/
theorem call_service_metrics_witness :
    (call_service [⟨"svc", "10.0.0.1", 80, none⟩] ⟨0, [], [], 0, [], 0⟩
        "svc" (CallOutcome.responds 500 "oops")).2.service_calls_total = 0 + 1 ∧
    (call_service [⟨"svc", "10.0.0.1", 80, none⟩] ⟨0, [], [], 0, [], 0⟩
        "missing-service" (CallOutcome.responds 500 "oops")).2 = ⟨0, [], [], 0, [], 0⟩ := by
  constructor
  · exact ((call_service_metrics [⟨"svc", "10.0.0.1", 80, none⟩]
      ⟨0, [], [], 0, [], 0⟩ "svc" (CallOutcome.responds 500 "oops")).1
      ⟨"svc", "10.0.0.1", 80, none⟩ (by decide)).1
  · exact (call_service_metrics [⟨"svc", "10.0.0.1", 80, none⟩]
      ⟨0, [], [], 0, [], 0⟩ "missing-service" (CallOutcome.responds 500 "oops")).2
      (by decide)

/-! ## Connection manager (`DatabaseManager`, database.py)

`DatabaseManager.__init__` (lines 22-28) sets `pg_pool`, `redis_client` and
`dynamodb` to `None` — but never creates the attribute `dynamo_table`; that
attribute first comes into existence inside `_initialize_dynamodb`.  We model
`dynamo_table` as an `Option` whose `none` value means "attribute never
created": every Python read of it in that state raises `AttributeError`
(there is no falsy-but-set state, boto3 `Table` objects being truthy).
The unused fields `rds_credentials`, `engine`, `SessionLocal` and `dynamodb`
are read by no accessor and are omitted.

Behaviour of the network backends is explicit data: each connect attempt,
health probe or data operation either succeeds or raises, and the state of
each backend (rows, keys, items) is threaded through the data accessors. -/

/-- An asyncpg pool handle (its only observable property here is presence). -/
structure PgPool where
  deriving Repr, DecidableEq

/-- A Redis client handle. -/
structure RedisClient where
  deriving Repr, DecidableEq

/-- A boto3 DynamoDB `Table` handle. -/
structure DynamoTable where
  deriving Repr, DecidableEq

/-- The connection-manager state (database.py lines 21-28). -/
structure DatabaseManager where
  pg_pool : Option PgPool
  redis_client : Option RedisClient
  dynamo_table : Option DynamoTable
  deriving Repr, DecidableEq

/-- `DatabaseManager()` as built by `__init__`: no pool, no client, and the
`dynamo_table` attribute not yet created. -/
def newManager : DatabaseManager := ⟨none, none, none⟩

/-- The three backend configuration inputs (database.py lines 15-17); the
empty string is the `os.getenv(..., "")` default meaning "not deployed". -/
structure DbConfig where
  rds_secret_arn : String
  dynamo_table_name : String
  redis_endpoint : String
  deriving Repr, DecidableEq

/-- Outcome of one awaited call into a backend library: a value, or a raised
exception. -/
inductive Attempt (α : Type) where
  | ok (value : α)
  | fails (msg : String)
  deriving Repr, DecidableEq

/-- The environment of one run of the initialization: how each backend call
would behave if issued. -/
structure InitEnv where
  rds_get_secret : Attempt String
  rds_create_pool : Attempt PgPool
  redis_from_url : Attempt RedisClient
  redis_ping : Attempt Unit
  dynamo_resource : Attempt Unit
  dynamo_describe : Attempt Unit
  deriving Repr, DecidableEq

/-- `_initialize_rds` (lines 42-77): skip when `RDS_SECRET_ARN` is empty;
otherwise fetch the secret and create the pool inside a `try` whose `except`
swallows any failure, so `pg_pool` is set only when both steps succeed. -/
def initialize_rds (cfg : DbConfig) (env : InitEnv) (db : DatabaseManager) :
    DatabaseManager :=
  if cfg.rds_secret_arn = "" then db
  else
    match env.rds_get_secret with
    | .fails _ => db
    | .ok _ =>
      match env.rds_create_pool with
      | .fails _ => db
      | .ok pool => { db with pg_pool := some pool }

/-- `_initialize_redis` (lines 79-100): skip when `REDIS_ENDPOINT` is empty;
otherwise assign `redis_client` from `from_url` and then ping inside the same
`try` — a ping failure is swallowed AFTER the assignment, so the client stays
set even when the ping fails. -/
def initialize_redis (cfg : DbConfig) (env : InitEnv) (db : DatabaseManager) :
    DatabaseManager :=
  if cfg.redis_endpoint = "" then db
  else
    match env.redis_from_url with
    | .fails _ => db
    | .ok c =>
      match env.redis_ping with
      | .fails _ => { db with redis_client := some c }
      | .ok _ => { db with redis_client := some c }

/-- `_initialize_dynamodb` (lines 102-118): skip when `DYNAMO_TABLE_NAME` is
empty; otherwise build the resource and assign `dynamo_table`, then call
`describe_table` in the same swallowing `try` — the attribute stays set even
when the describe fails. -/
def initialize_dynamodb (cfg : DbConfig) (env : InitEnv) (db : DatabaseManager) :
    DatabaseManager :=
  if cfg.dynamo_table_name = "" then db
  else
    match env.dynamo_resource with
    | .fails _ => db
    | .ok _ =>
      match env.dynamo_describe with
      | .fails _ => { db with dynamo_table := some ⟨⟩ }
      | .ok _ => { db with dynamo_table := some ⟨⟩ }

/-- `DatabaseManager.initialize` (lines 30-41): run the three sub-inits in
order inside one more catch-all `try`; since each sub-init absorbs its own
failures, the body never raises and all three attempts always complete. -/
def initialize_all (cfg : DbConfig) (env : InitEnv) (db : DatabaseManager) :
    DatabaseManager :=
  initialize_dynamodb cfg env (initialize_redis cfg env (initialize_rds cfg env db))

/-- Outcome of one health probe (a `SELECT 1`, a ping, a `describe_table`). -/
inductive ProbeOutcome where
  | ok
  | fails (msg : String)
  deriving Repr, DecidableEq

/-- The environment of one readiness check: how each probe would behave. -/
structure ReadinessProbes where
  pg_select1 : ProbeOutcome
  redis_ping : ProbeOutcome
  dynamo_describe : ProbeOutcome
  deriving Repr, DecidableEq

/-- The `dependencies` object of `GET /ready`. -/
structure DependenciesStatus where
  http : Bool
  postgresql : Bool
  redis : Bool
  dynamodb : Bool
  deriving Repr, DecidableEq

/-- The body of the `try` in `readiness_check` (main.py lines 200-223): the
three store checks in order, stopping at the first raised exception.  Reading
`db_manager.dynamo_table` when the attribute was never created raises
`AttributeError`. -/
def readinessProbes (db : DatabaseManager) (pr : ReadinessProbes) :
    Except String (Bool × Bool × Bool) := do
  let pg ← match db.pg_pool with
    | some _ =>
      match pr.pg_select1 with
      | .ok => pure true
      | .fails msg => throw msg
    | none => pure false
  let rd ← match db.redis_client with
    | some _ =>
      match pr.redis_ping with
      | .ok => pure true
      | .fails msg => throw msg
    | none => pure false
  let dy ← match db.dynamo_table with
    | some _ =>
      match pr.dynamo_describe with
      | .ok => pure true
      | .fails msg => throw msg
    | none => throw "AttributeError: DatabaseManager object has no attribute dynamo_table"
  pure (pg, rd, dy)

/-- `readiness_check` (main.py lines 191-246) with the database module
available: `http` is always `true`; a raised store check sends all three
store flags to `false` (lines 224-228); the endpoint then always answers 200
"ready" because `http` is `true`. -/
def readiness_check (db : DatabaseManager) (pr : ReadinessProbes) :
    DependenciesStatus :=
  match readinessProbes db pr with
  | .ok (pg, rd, dy) => { http := true, postgresql := pg, redis := rd, dynamodb := dy }
  | .error _ => { http := true, postgresql := false, redis := false, dynamodb := false }

lemma initialize_rds_fields (cfg : DbConfig) (env : InitEnv) (db : DatabaseManager) :
    (initialize_rds cfg env db).redis_client = db.redis_client ∧
    (initialize_rds cfg env db).dynamo_table = db.dynamo_table := by
  unfold initialize_rds
  split
  · exact ⟨rfl, rfl⟩
  · cases env.rds_get_secret <;> try exact ⟨rfl, rfl⟩
    cases env.rds_create_pool <;> exact ⟨rfl, rfl⟩

lemma initialize_redis_fields (cfg : DbConfig) (env : InitEnv) (db : DatabaseManager) :
    (initialize_redis cfg env db).pg_pool = db.pg_pool ∧
    (initialize_redis cfg env db).dynamo_table = db.dynamo_table := by
  unfold initialize_redis
  split
  · exact ⟨rfl, rfl⟩
  · cases env.redis_from_url <;> try exact ⟨rfl, rfl⟩
    cases env.redis_ping <;> exact ⟨rfl, rfl⟩

lemma initialize_redis_client_eq (cfg : DbConfig) (env : InitEnv)
    (db db' : DatabaseManager) (h : db.redis_client = db'.redis_client) :
    (initialize_redis cfg env db).redis_client
      = (initialize_redis cfg env db').redis_client := by
  unfold initialize_redis
  by_cases hc : cfg.redis_endpoint = ""
  · simp [hc, h]
  · cases env.redis_from_url
    · cases env.redis_ping <;> simp [hc]
    · simp [hc, h]

lemma initialize_dynamodb_table_eq (cfg : DbConfig) (env : InitEnv)
    (db db' : DatabaseManager) (h : db.dynamo_table = db'.dynamo_table) :
    (initialize_dynamodb cfg env db).dynamo_table
      = (initialize_dynamodb cfg env db').dynamo_table := by
  unfold initialize_dynamodb
  by_cases hc : cfg.dynamo_table_name = ""
  · simp [hc, h]
  · cases env.dynamo_resource
    · cases env.dynamo_describe <;> simp [hc]
    · simp [hc, h]

lemma initialize_dynamodb_fields (cfg : DbConfig) (env : InitEnv)
    (db : DatabaseManager) :
    (initialize_dynamodb cfg env db).pg_pool = db.pg_pool ∧
    (initialize_dynamodb cfg env db).redis_client = db.redis_client := by
  unfold initialize_dynamodb
  split
  · exact ⟨rfl, rfl⟩
  · cases env.dynamo_resource <;> try exact ⟨rfl, rfl⟩
    cases env.dynamo_describe <;> exact ⟨rfl, rfl⟩

/-- **C3**: `initialize` is a total function that runs all three connect
attempts: each handle ends exactly as its own sub-init alone would leave it,
so a failure in one backend touches neither the other handles nor the
service (nothing propagates out).  With all three configurations absent it
returns the manager unchanged — all handles without a connection — and the
subsequent readiness check then reports all three stores unavailable. -/
theorem initialize_all_spec (cfg : DbConfig) (env : InitEnv)
    (db : DatabaseManager) (pr : ReadinessProbes) :
    ((initialize_all cfg env db).pg_pool = (initialize_rds cfg env db).pg_pool ∧
     (initialize_all cfg env db).redis_client
        = (initialize_redis cfg env db).redis_client ∧
     (initialize_all cfg env db).dynamo_table
        = (initialize_dynamodb cfg env db).dynamo_table) ∧
    (initialize_all ⟨"", "", ""⟩ env newManager = newManager ∧
     readiness_check (initialize_all ⟨"", "", ""⟩ env newManager) pr =
       { http := true, postgresql := false, redis := false, dynamodb := false }) := by
  refine ⟨⟨?_, ?_, ?_⟩, rfl, rfl⟩
  · unfold initialize_all
    rw [(initialize_dynamodb_fields cfg env _).1,
        (initialize_redis_fields cfg env _).1]
  · unfold initialize_all
    rw [(initialize_dynamodb_fields cfg env _).2]
    exact initialize_redis_client_eq cfg env _ db
      (initialize_rds_fields cfg env db).1
  · unfold initialize_all
    exact initialize_dynamodb_table_eq cfg env _ db
      (((initialize_redis_fields cfg env _).2).trans
        (initialize_rds_fields cfg env db).2)

/-! ## Data accessors (database.py lines 129-311, routers/database.py)

Exceptions raised by an accessor propagate to the route layer, which we
model with `Except String`: `.error` is a raised exception carrying
`str(e)`.  The route handlers translate these into `HTTPException`s. -/

/-- Association-list update with keyed overwrite (Redis `SETEX`, DynamoDB
`put_item`). -/
def dictSet {α β : Type} [DecidableEq α] : List (α × β) → α → β → List (α × β)
  | [], k, v => [(k, v)]
  | (k', v') :: rest, k, v =>
    if k' = k then (k, v) :: rest else (k', v') :: dictSet rest k v

/-- One row of the `users` table (the `created_at`/`updated_at`/`is_active`
columns play no role in any claim and are omitted); `id` is the generated
UUID, modelled as a natural number. -/
structure UserRow where
  id : ℕ
  username : String
  email : String
  full_name : String
  deriving Repr, DecidableEq

/-- State of the PostgreSQL backend: the `users` rows plus the `uuid.uuid4()`
generator, modelled as a counter handing out identifiers. -/
structure PgDatabase where
  users : List UserRow
  nextId : ℕ
  deriving Repr, DecidableEq

def pgUnavailableMsg : String := "PostgreSQL connection not initialized"

def uniqueViolationMsg : String := "duplicate key value violates unique constraint"

/-- `DatabaseManager.create_user` (database.py lines 129-165): raise when
`pg_pool` is absent; otherwise generate a fresh id and INSERT the row.  The
`UNIQUE` constraints on `username` and `email` make the INSERT raise a
unique-violation when either value is already taken, and nothing in
`create_user` catches it. -/
def create_user (db : DatabaseManager) (pg : PgDatabase)
    (username email full_name : String) : Except String (UserRow × PgDatabase) :=
  match db.pg_pool with
  | none => .error pgUnavailableMsg
  | some _ =>
    let row : UserRow := ⟨pg.nextId, username, email, full_name⟩
    if pg.users.any (fun u => u.username == username || u.email == email) then
      .error uniqueViolationMsg
    else
      .ok (row, { users := pg.users ++ [row], nextId := pg.nextId + 1 })

/-- `DatabaseManager.get_user` (lines 167-180): raise when `pg_pool` is
absent; otherwise `SELECT * FROM users WHERE id = $1`, `None` on no row. -/
def get_user (db : DatabaseManager) (pg : PgDatabase) (user_id : ℕ) :
    Except String (Option UserRow) :=
  match db.pg_pool with
  | none => .error pgUnavailableMsg
  | some _ => .ok (pg.users.find? (fun u => u.id == user_id))

/-- State of the Redis backend: the live key-value entries (`SETEX` TTL
expiry is enforced inside Redis and abstracted into presence in `store`),
plus a fault flag meaning the backend raises on the next operation. -/
structure RedisState where
  store : List (String × String)
  faulty : Bool
  deriving Repr, DecidableEq

/-- `DatabaseManager.cache_set` (lines 225-233): silently return when
`redis_client` is absent; otherwise `SETEX` inside a `try` whose `except`
logs and swallows any backend error.  The `ttl` is forwarded to the backend
(expiry is the backend's job).  No path raises. -/
def cache_set (db : DatabaseManager) (rs : RedisState) (key value : String)
    (ttl : ℕ) : Except String RedisState :=
  match db.redis_client with
  | none => .ok rs
  | some _ =>
    if rs.faulty then .ok rs
    else .ok { rs with store := dictSet rs.store key value }

/-- `DatabaseManager.cache_get` (lines 235-247): `None` when `redis_client`
is absent; otherwise `GET` inside a `try` — a present value is JSON-decoded
and returned, a missing key gives `None`, and a backend error is logged and
gives `None` as well.  No path raises. -/
def cache_get (db : DatabaseManager) (rs : RedisState) (key : String) :
    Except String (Option String) :=
  match db.redis_client with
  | none => .ok none
  | some _ =>
    if rs.faulty then .ok none
    else .ok (rs.store.lookup key)

/-- `DatabaseManager.cache_delete` (lines 249-257): silently return when
`redis_client` is absent; otherwise `DELETE` with errors swallowed. -/
def cache_delete (db : DatabaseManager) (rs : RedisState) (key : String) :
    Except String RedisState :=
  match db.redis_client with
  | none => .ok rs
  | some _ =>
    if rs.faulty then .ok rs
    else .ok { rs with store := rs.store.filter (fun p => !(p.1 == key)) }

/-- A stored DynamoDB item: the JSON-encoded `data` attribute and the
absolute-expiry `ttl` attribute. -/
structure DynamoItem where
  data : String
  ttl : ℤ
  deriving Repr, DecidableEq

/-- State of the DynamoDB backend: items keyed by the composite primary key
`(id, timestamp)`, plus a fault flag. -/
structure DynamoState where
  items : List ((String × ℤ) × DynamoItem)
  faulty : Bool
  deriving Repr, DecidableEq

def dynamoAttrErrorMsg : String :=
  "AttributeError: DatabaseManager object has no attribute dynamo_table"

/-- `DatabaseManager.store_session_data` (lines 260-275): the guard reads
`self.dynamo_table`, which raises `AttributeError` when the attribute was
never created; with the table present, `put_item` writes the item under the
composite key `(session_id, int(utcnow().timestamp()))` — `nowSec` is that
whole-second clock reading — with `ttl` forwarded as the absolute expiry
`nowSec + ttl`; backend errors are swallowed. -/
def store_session_data (db : DatabaseManager) (dyn : DynamoState)
    (session_id : String) (data : String) (ttl : ℤ) (nowSec : ℤ) :
    Except String DynamoState :=
  match db.dynamo_table with
  | none => .error dynamoAttrErrorMsg
  | some _ =>
    if dyn.faulty then .ok dyn
    else .ok { dyn with
      items := dictSet dyn.items (session_id, nowSec) ⟨data, nowSec + ttl⟩ }

/-- `DatabaseManager.get_session_data` (lines 277-292): the guard raises
`AttributeError` when the attribute was never created; with the table
present, `get_item` looks up the composite key
`(session_id, int(utcnow().timestamp()))` at the read-time second `nowSec`;
a missing item gives `None` and a backend error is swallowed into `None`. -/
def get_session_data (db : DatabaseManager) (dyn : DynamoState)
    (session_id : String) (nowSec : ℤ) : Except String (Option String) :=
  match db.dynamo_table with
  | none => .error dynamoAttrErrorMsg
  | some _ =>
    if dyn.faulty then .ok none
    else .ok ((dyn.items.lookup (session_id, nowSec)).map DynamoItem.data)

/-- `DatabaseManager.get_user_activity` (lines 294-311): the guard raises
`AttributeError` when the attribute was never created; with the table
present, the GSI query result (the backend applies the `Limit`) is passed
through, a backend error being swallowed into `[]`. -/
def get_user_activity (db : DatabaseManager) (reply : Attempt (List String))
    (user_id : String) (limit : ℕ) : Except String (List String) :=
  match db.dynamo_table with
  | none => .error dynamoAttrErrorMsg
  | some _ =>
    match reply with
    | .fails _ => .ok []
    | .ok items => .ok items

/-- An `HTTPException` as seen by the HTTP client. -/
structure HttpError where
  status : ℕ
  detail : String
  deriving Repr, DecidableEq

/-- Route handler `create_user` (routers/database.py lines 63-83).  Its
`try` has only a bare `except Exception` — which also catches the
`HTTPException(503)` raised by its own availability pre-check — so every
failure, the pre-check and the unique violation included, is re-raised as a
generic 500 whose detail embeds `str(e)`. -/
def router_create_user (db : DatabaseManager) (pg : PgDatabase)
    (username email full_name : String) :
    Except HttpError (UserRow × PgDatabase) :=
  match db.pg_pool with
  | none => .error ⟨500, "Failed to create user: 503: PostgreSQL not available"⟩
  | some _ =>
    match create_user db pg username email full_name with
    | .ok r => .ok r
    | .error e => .error ⟨500, "Failed to create user: " ++ e⟩

/-- Route handler `get_cache` (routers/database.py lines 130-155).  This one
re-raises `HTTPException` before the generic handler, so the 503
availability pre-check and the 404 for a `None` value reach the client
as-is. -/
def router_get_cache (db : DatabaseManager) (rs : RedisState) (key : String) :
    Except HttpError String :=
  match db.redis_client with
  | none => .error ⟨503, "Redis not available"⟩
  | some _ =>
    match cache_get db rs key with
    | .ok none => .error ⟨404, "Cache key not found"⟩
    | .ok (some v) => .ok v
    | .error e => .error ⟨500, "Failed to get cache: " ++ e⟩

lemma lookup_dictSet_self {α β : Type} [DecidableEq α] [BEq α] [LawfulBEq α]
    (m : List (α × β)) (k : α) (v : β) :
    (dictSet m k v).lookup k = some v := by
  induction m with
  | nil => simp [dictSet, List.lookup]
  | cons p rest ih =>
    obtain ⟨k', v'⟩ := p
    by_cases h : k' = k
    · simp [dictSet, h, List.lookup]
    · have hb : (k == k') = false := beq_eq_false_iff_ne.mpr (Ne.symm h)
      simpa [dictSet, if_neg h, List.lookup, hb] using ih

lemma lookup_dictSet_ne {α β : Type} [DecidableEq α] [BEq α] [LawfulBEq α]
    (m : List (α × β)) (k k' : α) (v : β) (h : k' ≠ k) :
    (dictSet m k v).lookup k' = m.lookup k' := by
  have hb : (k' == k) = false := beq_eq_false_iff_ne.mpr h
  induction m with
  | nil => simp [dictSet, List.lookup, hb]
  | cons p rest ih =>
    obtain ⟨k'', v''⟩ := p
    by_cases h2 : k'' = k
    · subst h2
      simp [dictSet, List.lookup, hb]
    · by_cases h3 : k'' = k'
      · subst h3
        simp [dictSet, if_neg h2, List.lookup]
      · have hb3 : (k' == k'') = false := beq_eq_false_iff_ne.mpr (Ne.symm h3)
        simpa [dictSet, if_neg h2, List.lookup, hb3] using ih

/-- Counterexample to **C4** as stated: with the Redis handle absent,
`cache_set` does not fail with any unavailability condition — it returns
normally and leaves the backend untouched, a silent no-op. -/
theorem cache_set_silent_noop_cex :
    cache_set ⟨none, none, none⟩ ⟨[], false⟩ "k" "v" 3600
      = Except.ok ⟨[], false⟩ := rfl

/-- **C4 (amended)**: with the corresponding handle absent, no accessor
attempts a connect-on-demand and none mutates backend state — but only the
two PostgreSQL accessors fail fast with an unavailability error; the three
Redis accessors return normally (no-op writes, absent read), and the three
DynamoDB accessors raise `AttributeError`, their guard itself reading the
never-created attribute.  The `StoreUnavailable` (503) condition of the
spec lives in the route layer's pre-checks, not in the manager. -/
theorem accessors_absent_handle (db : DatabaseManager) (pg : PgDatabase)
    (rs : RedisState) (dyn : DynamoState) (reply : Attempt (List String))
    (username email full_name key value sid data uid : String)
    (ttl : ℕ) (user_id : ℕ) (sttl nowSec : ℤ) (lim : ℕ)
    (hpg : db.pg_pool = none) (hrd : db.redis_client = none)
    (hdy : db.dynamo_table = none) :
    create_user db pg username email full_name = .error pgUnavailableMsg ∧
    get_user db pg user_id = .error pgUnavailableMsg ∧
    cache_set db rs key value ttl = .ok rs ∧
    cache_get db rs key = .ok none ∧
    cache_delete db rs key = .ok rs ∧
    store_session_data db dyn sid data sttl nowSec = .error dynamoAttrErrorMsg ∧
    get_session_data db dyn sid nowSec = .error dynamoAttrErrorMsg ∧
    get_user_activity db reply uid lim = .error dynamoAttrErrorMsg := by
  unfold create_user get_user cache_set cache_get cache_delete
    store_session_data get_session_data get_user_activity
  rw [hpg, hrd, hdy]
  exact ⟨rfl, rfl, rfl, rfl, rfl, rfl, rfl, rfl⟩

/-- Witness for `accessors_absent_handle`: the fresh manager, whose three
handles are all absent. -/
theorem accessors_absent_handle_witness :
    create_user newManager ⟨[], 0⟩ "alice" "a@x.com" "Alice A"
        = .error pgUnavailableMsg ∧
    cache_set newManager ⟨[], false⟩ "k" "v" 3600 = .ok ⟨[], false⟩ ∧
    store_session_data newManager ⟨[], false⟩ "s" "d" 10 100
        = .error dynamoAttrErrorMsg := by
  have h := accessors_absent_handle newManager ⟨[], 0⟩ ⟨[], false⟩ ⟨[], false⟩
    (Attempt.ok []) "alice" "a@x.com" "Alice A" "k" "v" "s" "d" "u"
    3600 0 10 100 0 rfl rfl rfl
  exact ⟨h.1, h.2.2.1, h.2.2.2.2.2.1⟩

/-- A manager whose Redis handle is connected. -/
def connectedRedisDb : DatabaseManager := ⟨none, some ⟨⟩, none⟩

/-- Counterexample to **C5** as stated: with the cache connected, the value
returned for a key that was never set equals the value returned when the
backend errors while the key is present — `None` both times — so a caller
cannot tell "not found" from "backend error" by the returned value alone. -/
theorem cache_get_indistinguishable_cex :
    cache_get connectedRedisDb ⟨[], false⟩ "k"
        = cache_get connectedRedisDb ⟨[("k", "v")], true⟩ "k" ∧
    cache_get connectedRedisDb ⟨[], false⟩ "k" = Except.ok none := ⟨rfl, rfl⟩

/-- **C5 (amended)**: with the cache connected, `cache_get` on a missing key
returns the explicit absent result (`None`, surfaced as a 404 by the route
layer) without raising, and after a successful `cache_set` of `(key, v)` it
returns `v`; but a backend error during the get is swallowed into that same
`None`, so "not found" and "backend error" are not distinguishable from the
returned value — only the absent-handle case is told apart, by the route
layer's 503 pre-check. -/
theorem cache_get_spec (db : DatabaseManager) (c : RedisClient)
    (rs : RedisState) (key value : String) (ttl : ℕ)
    (hc : db.redis_client = some c) :
    (rs.faulty = false → rs.store.lookup key = none →
      cache_get db rs key = .ok none) ∧
    (rs.faulty = true → cache_get db rs key = .ok none) ∧
    (rs.faulty = false → ∀ rs', cache_set db rs key value ttl = .ok rs' →
      cache_get db rs' key = .ok (some value)) ∧
    (∀ rs0 key0, router_get_cache ⟨db.pg_pool, none, db.dynamo_table⟩ rs0 key0
        = .error ⟨503, "Redis not available"⟩) := by
  refine ⟨?_, ?_, ?_, ?_⟩
  · intro hf hmiss
    unfold cache_get
    rw [hc, if_neg (by simp [hf]), hmiss]
  · intro hf
    unfold cache_get
    rw [hc, if_pos hf]
  · intro hf rs' hset
    unfold cache_set at hset
    rw [hc, if_neg (by simp [hf])] at hset
    cases hset
    unfold cache_get
    rw [hc]
    simp only [hf, if_neg Bool.false_ne_true]
    rw [lookup_dictSet_self]
  · intro rs0 key0
    unfold router_get_cache
    rfl

/-- Witness for `cache_get_spec`: the connected manager with an empty
backend, then with the key set. -/
theorem cache_get_spec_witness :
    cache_get connectedRedisDb ⟨[], false⟩ "k" = .ok none ∧
    cache_get connectedRedisDb ⟨[("k", "v")], false⟩ "k" = .ok (some "v") := by
  have h := cache_get_spec connectedRedisDb ⟨⟩ ⟨[], false⟩ "k" "v" 3600 rfl
  exact ⟨h.1 rfl rfl, h.2.2.1 rfl ⟨[("k", "v")], false⟩ rfl⟩

/-- Counterexample to **C6** as stated: creating `alice` twice, the second
call reaches the caller as the generic 500 internal error — the same status
every other failure gets (the absent-pool failure shown alongside) — not a
distinct Conflict condition. -/
theorem create_user_duplicate_cex :
    router_create_user ⟨some ⟨⟩, none, none⟩ ⟨[], 0⟩ "alice" "a@x.com" "Alice A"
      = Except.ok (⟨0, "alice", "a@x.com", "Alice A"⟩,
          ⟨[⟨0, "alice", "a@x.com", "Alice A"⟩], 1⟩) ∧
    router_create_user ⟨some ⟨⟩, none, none⟩
        ⟨[⟨0, "alice", "a@x.com", "Alice A"⟩], 1⟩ "alice" "a@x.com" "Alice A"
      = Except.error ⟨500,
          "Failed to create user: duplicate key value violates unique constraint"⟩ ∧
    router_create_user ⟨none, none, none⟩ ⟨[], 0⟩ "bob" "b@x.com" "Bob B"
      = Except.error ⟨500, "Failed to create user: 503: PostgreSQL not available"⟩ := by
  refine ⟨rfl, rfl, rfl⟩

/-- **C6 (amended)**: every call inserts under the freshly generated
identifier (distinct from every stored row whenever ids were only ever
generator-produced); a duplicate username or email makes the INSERT raise a
unique violation, which is not silently ignored — but the route layer
converts it, like every other failure, into a generic 500 internal error
embedding the message, not a distinct Conflict/409 condition. -/
theorem create_user_spec (db : DatabaseManager) (p : PgPool) (pg : PgDatabase)
    (username email full_name : String) (hp : db.pg_pool = some p) :
    ((∀ u ∈ pg.users, u.id < pg.nextId) →
      ∀ row pg', create_user db pg username email full_name = .ok (row, pg') →
        row.id = pg.nextId ∧ (∀ u ∈ pg.users, u.id ≠ row.id) ∧
        pg'.users = pg.users ++ [row] ∧ pg'.nextId = pg.nextId + 1) ∧
    ((∃ u ∈ pg.users, u.username = username ∨ u.email = email) →
      create_user db pg username email full_name = .error uniqueViolationMsg ∧
      router_create_user db pg username email full_name
        = .error ⟨500, "Failed to create user: " ++ uniqueViolationMsg⟩) := by
  constructor
  · intro hfresh row pg' hok
    unfold create_user at hok
    rw [hp] at hok
    by_cases hdup : pg.users.any (fun u => u.username == username || u.email == email)
    · rw [if_pos hdup] at hok
      exact absurd hok (by simp)
    · rw [if_neg hdup] at hok
      obtain ⟨h1, h2⟩ := Prod.mk.injEq .. ▸ Except.ok.inj hok
      subst h1
      subst h2
      refine ⟨rfl, ?_, rfl, rfl⟩
      intro u hu hEq
      have h2 := hfresh u hu
      simp at hEq
      omega
  · intro hdup
    have hany : pg.users.any (fun u => u.username == username || u.email == email) := by
      obtain ⟨u, hu, hcase⟩ := hdup
      apply List.any_eq_true.mpr
      refine ⟨u, hu, ?_⟩
      rcases hcase with h | h <;> simp [h]
    have hcu : create_user db pg username email full_name = .error uniqueViolationMsg := by
      unfold create_user
      rw [hp, if_pos hany]
    refine ⟨hcu, ?_⟩
    unfold router_create_user
    rw [hp, hcu]

/-- Witness for `create_user_spec`: concrete fresh insert and concrete
duplicate. -/
theorem create_user_spec_witness :
    create_user ⟨some ⟨⟩, none, none⟩
        ⟨[⟨0, "alice", "a@x.com", "Alice A"⟩], 1⟩ "alice" "other@x.com" "Alice Two"
      = .error uniqueViolationMsg ∧
    (⟨1, "bob", "b@x.com", "Bob B"⟩ : UserRow).id = 1 := by
  have h := create_user_spec ⟨some ⟨⟩, none, none⟩ ⟨⟩
    ⟨[⟨0, "alice", "a@x.com", "Alice A"⟩], 1⟩ "alice" "other@x.com" "Alice Two" rfl
  refine ⟨(h.2 ⟨⟨0, "alice", "a@x.com", "Alice A"⟩, by simp, Or.inl rfl⟩).1, rfl⟩

/-- **C10**: `store_session_data` keys the item by `(session_id, ts)`, `ts`
being the whole-second clock reading at store time, while `get_session_data`
looks up `(session_id, tg)` with `tg` the whole-second reading at read time;
so the round trip yields the stored data when the two readings coincide, and
the absent result when they differ (no pre-existing item under the read
key). -/
theorem session_roundtrip_same_second (db : DatabaseManager)
    (tbl : DynamoTable) (dyn dyn' : DynamoState) (sid data : String)
    (ttl ts tg : ℤ) (htbl : db.dynamo_table = some tbl)
    (hf : dyn.faulty = false)
    (hstore : store_session_data db dyn sid data ttl ts = .ok dyn') :
    (tg = ts → get_session_data db dyn' sid tg = .ok (some data)) ∧
    (tg ≠ ts → dyn.items.lookup (sid, tg) = none →
      get_session_data db dyn' sid tg = .ok none) := by
  unfold store_session_data at hstore
  rw [htbl, if_neg (by simp [hf])] at hstore
  have hdyn' := (Except.ok.inj hstore).symm
  subst hdyn'
  constructor
  · intro heq
    subst heq
    unfold get_session_data
    rw [htbl]
    simp only [hf, if_neg Bool.false_ne_true]
    rw [lookup_dictSet_self]
    rfl
  · intro hne hmiss
    unfold get_session_data
    rw [htbl]
    simp only [hf, if_neg Bool.false_ne_true]
    rw [lookup_dictSet_ne _ _ _ _ (by simp [hne]), hmiss]
    rfl

/-- Witness for `session_roundtrip_same_second`: a session stored at
second 100 is found at second 100 and absent at second 101. -/
theorem session_roundtrip_same_second_witness :
    get_session_data ⟨none, none, some ⟨⟩⟩
        ⟨[(("s", 100), ⟨"d", 110⟩)], false⟩ "s" 100 = Except.ok (some "d") ∧
    get_session_data ⟨none, none, some ⟨⟩⟩
        ⟨[(("s", 100), ⟨"d", 110⟩)], false⟩ "s" 101 = Except.ok none := by
  have h1 := session_roundtrip_same_second ⟨none, none, some ⟨⟩⟩ ⟨⟩
    ⟨[], false⟩ ⟨[(("s", 100), ⟨"d", 110⟩)], false⟩ "s" "d" 10 100 100 rfl rfl rfl
  have h2 := session_roundtrip_same_second ⟨none, none, some ⟨⟩⟩ ⟨⟩
    ⟨[], false⟩ ⟨[(("s", 100), ⟨"d", 110⟩)], false⟩ "s" "d" 10 100 101 rfl rfl rfl
  exact ⟨h1.1 rfl, h2.2 (by decide) rfl⟩

end Microservice
